import Mathlib

/-!
Shallow embedding of the plexmate88 pipeline (src/main.py, src/plex.py,
src/tl.py).

External I/O (HTTP calls of the torrent indexer, the torrent download and
the SCP transfer, and the Plex watchlist HTTP response) is modelled by an
environment of oracles; the Python control flow of `main.py` is translated
function by function.  A Python `dict` lookup `item["k"]` on a possibly
missing key is modelled with `Option` plus an explicit `KeyError`; every
function returns the list of observable effects (log warnings, searches,
torrent downloads, SCP transfers) together with `Except PyError`, an
`error` value standing for an uncaught Python exception propagating out of
the function.

Note on the source: in `download_and_transfer_torrent` (main.py lines
94-107) the block reading the REMOTE_* environment variables and calling
`scp_file_to_remote` is indented one level deeper than the surrounding
statements; the embedding reads it as part of the same suite, which is the
only coherent reading.  The `remote_path` variable built there from the
hard coded base and the media type is assigned and never used; the SCP
call receives `f"{remote_path_base}/{local_file}"` instead.
-/

/-- A torrent candidate as consumed by `main.py`: only the `fid` and
`filename` dict fields are ever read. -/
structure Torrent where
  fid : String
  filename : String
deriving DecidableEq, Repr

/-- The JSON body returned by `fetch_torrentleech_data`; `main.py` reads
its `torrentList` field. -/
structure TLData where
  torrentList : List Torrent
deriving DecidableEq, Repr

/-- A watchlist item (a Python dict): the keys `type`, `title` and `year`
are the ones read by `main.py`; `none` models an absent key. -/
structure Item where
  type : Option String
  title : Option String
  year : Option Int
deriving DecidableEq, Repr

/-- An uncaught Python exception. -/
inductive PyError where
  | keyError (key : String)
  | httpError (detail : String)
  | scpError (detail : String)
deriving DecidableEq, Repr

/-- Observable effects of a run: search requests, warning log lines,
torrent downloads (`download_torrent fid filename save_to`) and SCP
transfers (`scp_file_to_remote file_path ... remote_path`). -/
inductive Event where
  | searched (query : String)
  | warned (msg : String)
  | downloaded (fid : String) (filename : String) (saveTo : String)
  | transferred (filePath : String) (remotePath : String)
deriving DecidableEq, Repr

/-- The body of the Plex watchlist HTTP response, as inspected by
`PlexAPI._parse_response`: blank content, content whose `.json()` raises
`ValueError`, or parsed JSON.  In the JSON case `metadata` is the value of
`data["MediaContainer"]["Metadata"]`; `none` models either key missing,
in which case the chained `.get` defaults produce `[]`. -/
inductive PlexBody where
  | emptyBody
  | invalidJson
  | jsonBody (metadata : Option (List Item))
deriving DecidableEq, Repr

/-- The outcome of the HTTP GET in `PlexAPI.fetch_watchlist`:
`requestException` models any `requests.exceptions.RequestException`
(connection failure, timeout, or a bad status raised by
`raise_for_status`); otherwise a body is available. -/
inductive PlexResponse where
  | requestException
  | success (body : PlexBody)
deriving DecidableEq, Repr

/-- The environment of external services: the torrent indexer search
(`fetch_torrentleech_data`, an `error` result modelling a raised HTTP
exception), the torrent download I/O, the SCP transfer I/O, the
`REMOTE_PATH_BASE` environment variable, and the Plex HTTP response. -/
structure Env where
  fetchTL : String → Except PyError TLData
  download : String → String → String → Except PyError Unit
  scp : String → String → Except PyError Unit
  remotePathBase : String
  plexResponse : PlexResponse

/-- Result of a pipeline step: the effects it performed, and either a
value or the Python exception that escaped it. -/
abbrev Res (α : Type) := List Event × Except PyError α

/-- `PlexAPI._parse_response`: blank content and JSON parse failures yield
`None`; otherwise `data.get("MediaContainer", {}).get("Metadata", [])`. -/
def PlexAPI.parse_response : PlexBody → Option (List Item)
  | .emptyBody => none
  | .invalidJson => none
  | .jsonBody metadata => some (metadata.getD [])

/-- `PlexAPI.fetch_watchlist`: any `RequestException` is caught and yields
`None`; otherwise the response is parsed. -/
def PlexAPI.fetch_watchlist : PlexResponse → Option (List Item)
  | .requestException => none
  | .success body => PlexAPI.parse_response body

/-- The warning `main.fetch_watchlist` logs for a falsy watchlist. -/
def noItemsMsg : String := "No items found in the watchlist."

/-- The warning `search_torrents` logs for an empty result list. -/
def noTorrentsMsg (query : String) : String :=
  "No torrents found for query: " ++ query

/-- `main.fetch_watchlist`: fetches the Plex watchlist, logs a warning when
it is falsy (`None` or empty), and returns `watchlist or []`. -/
def fetch_watchlist (response : PlexResponse) : List Event × List Item :=
  match PlexAPI.fetch_watchlist response with
  | none => ([Event.warned noItemsMsg], [])
  | some [] => ([Event.warned noItemsMsg], [])
  | some watchlist => ([], watchlist)

/-- `main.search_torrents`: calls `fetch_torrentleech_data(query)` (whose
HTTP errors propagate), reads `["torrentList"]`, and logs a warning when
the list is empty. -/
def search_torrents (env : Env) (query : String) : Res (List Torrent) :=
  match env.fetchTL query with
  | .error e => ([Event.searched query], .error e)
  | .ok data =>
    let result := data.torrentList
    if result.isEmpty then
      ([Event.searched query, Event.warned (noTorrentsMsg query)], .ok result)
    else
      ([Event.searched query], .ok result)

/-- `main.download_and_transfer_torrent`: downloads the torrent file, then
copies it by SCP.  The media-typed `remote_path` string is assigned but
never used; the SCP destination actually passed is
`f"{remote_path_base}/{local_file}"`.  Errors of either I/O call
propagate. -/
def download_and_transfer_torrent (env : Env) (torrent : Torrent)
    (media_type : String) : Res Unit :=
  let local_file := torrent.filename
  match env.download torrent.fid torrent.filename torrent.filename with
  | .error e => ([], .error e)
  | .ok _ =>
    let _remote_path :=
      "/home/blitzcrank/watch/qbittorrent/" ++ media_type ++ "/" ++ local_file
    let dest := env.remotePathBase ++ "/" ++ local_file
    match env.scp local_file dest with
    | .error e =>
      ([Event.downloaded torrent.fid torrent.filename torrent.filename],
       .error e)
    | .ok _ =>
      ([Event.downloaded torrent.fid torrent.filename torrent.filename,
        Event.transferred local_file dest], .ok ())

/-- Python `str(season).zfill(2)` for the nonnegative season numbers used
here: left-pad with zeros to the given width. -/
def zfill (s : String) (width : Nat) : String :=
  if width ≤ s.length then s
  else String.mk (List.replicate (width - s.length) '0') ++ s

/-- The show search query `f"{title} S{str(season).zfill(2)}"`. -/
def showQuery (title : String) (season : Nat) : String :=
  title ++ " S" ++ zfill (toString season) 2

/-- The body of the `for season in range(1, 10)` loop of
`main.process_show`, as structural recursion over the remaining season
numbers: search; on an empty result `continue`; otherwise download and
transfer `result[0]` with media type `"series"` and keep iterating. -/
def process_show_seasons (env : Env) (title : String) :
    List Nat → Res Unit
  | [] => ([], .ok ())
  | season :: rest =>
    let query := showQuery title season
    match search_torrents env query with
    | (evs, .error e) => (evs, .error e)
    | (evs, .ok []) =>
      let (evs2, r) := process_show_seasons env title rest
      (evs ++ evs2, r)
    | (evs, .ok (t :: _)) =>
      match download_and_transfer_torrent env t "series" with
      | (devs, .error e) => (evs ++ devs, .error e)
      | (devs, .ok _) =>
        let (evs2, r) := process_show_seasons env title rest
        (evs ++ devs ++ evs2, r)

/-- `main.process_show`: reads `item["title"]` (a `KeyError` if absent)
and runs the season loop over `range(1, 10)`. -/
def process_show (env : Env) (item : Item) : Res Unit :=
  match item.title with
  | none => ([], .error (.keyError "title"))
  | some title => process_show_seasons env title (List.range' 1 9)

/-- `main.process_movie`: builds `f"{item['title']} {item['year']}"`
(reading `title` then `year`, each a `KeyError` if absent), searches once,
returns on an empty result, otherwise downloads and transfers `result[0]`
with media type `"films"`. -/
def process_movie (env : Env) (item : Item) : Res Unit :=
  match item.title with
  | none => ([], .error (.keyError "title"))
  | some title =>
    match item.year with
    | none => ([], .error (.keyError "year"))
    | some year =>
      let query := title ++ " " ++ toString year
      match search_torrents env query with
      | (evs, .error e) => (evs, .error e)
      | (evs, .ok []) => (evs, .ok ())
      | (evs, .ok (t :: _)) =>
        let (devs, r) := download_and_transfer_torrent env t "films"
        (evs ++ devs, r)

/-- `main.process_watchlist_item`: dispatches on `item["type"] == "show"`
(a `KeyError` if `type` is absent), then logs the success message, which
reads `item["title"]` again. -/
def process_watchlist_item (env : Env) (item : Item) : Res Unit :=
  match item.type with
  | none => ([], .error (.keyError "type"))
  | some ty =>
    let (evs, r) :=
      if ty = "show" then process_show env item else process_movie env item
    match r with
    | .error e => (evs, .error e)
    | .ok _ =>
      match item.title with
      | none => (evs, .error (.keyError "title"))
      | some _ => (evs, .ok ())

/-- The `for item in watchlist` loop of `main.main`: items are processed
in order; an uncaught exception aborts the whole loop. -/
def process_watchlist (env : Env) : List Item → Res Unit
  | [] => ([], .ok ())
  | item :: rest =>
    match process_watchlist_item env item with
    | (evs, .error e) => (evs, .error e)
    | (evs, .ok _) =>
      let (evs2, r) := process_watchlist env rest
      (evs ++ evs2, r)

namespace Main

/-- `main.main`: fetch the watchlist, then process every item. -/
def main (env : Env) : Res Unit :=
  let (evs, watchlist) := fetch_watchlist env.plexResponse
  let (evs2, r) := process_watchlist env watchlist
  (evs ++ evs2, r)

end Main

/-- The queries of the `searched` events of an effect trace, in order. -/
def queriesOf : List Event → List String
  | [] => []
  | .searched q :: es => q :: queriesOf es
  | _ :: es => queriesOf es

/-- The `(fid, filename, save_to)` arguments of the torrent downloads of
an effect trace, in order. -/
def downloadsOf : List Event → List (String × String × String)
  | [] => []
  | .downloaded fid fn sv :: es => (fid, fn, sv) :: downloadsOf es
  | _ :: es => downloadsOf es

/-- The `(file_path, remote_path)` arguments of the SCP transfers of an
effect trace, in order. -/
def transfersOf : List Event → List (String × String)
  | [] => []
  | .transferred fp rp :: es => (fp, rp) :: transfersOf es
  | _ :: es => transfersOf es

/-- Whether the first character list starts the second one. -/
def charsLead : List Char → List Char → Bool
  | [], _ => true
  | _ :: _, [] => false
  | a :: as, b :: bs => a == b && charsLead as bs

/-- Naive substring search on character lists, the model of Python's
`sub in s` on strings. -/
def containsL (sub : List Char) : List Char → Bool
  | [] => charsLead sub []
  | l@(_ :: rest) => charsLead sub l || containsL sub rest

/-- Python `sub in s` for strings. -/
def str_in (sub s : String) : Bool := containsL sub.data s.data

/-- `main.is_series`: `"S0" in title`. -/
def is_series (title : String) : Bool := str_in "S0" title

/-- Concrete fixture: a season-1 candidate. -/
def torA : Torrent := ⟨"101", "a.s01.mkv"⟩

/-- Concrete fixture: a season-2 candidate. -/
def torB : Torrent := ⟨"102", "a.s02.mkv"⟩

/-- Concrete fixture: a candidate named as in the spec's path example. -/
def torX : Torrent := ⟨"7", "X.mkv"⟩

/-- Concrete fixture: the movie candidate of the spec's end-to-end
scenario. -/
def torFoo : Torrent := ⟨"1", "foo.2020.mkv"⟩

/-- Concrete fixture: a show item titled `TShow`. -/
def itemShowA : Item := ⟨some "show", some "TShow", none⟩

/-- Concrete fixture: a movie item `Foo (2020)`. -/
def itemFoo : Item := ⟨some "movie", some "Foo", some 2020⟩

/-- Concrete fixture: a movie item `Bar (1999)` with no search hits. -/
def itemBar : Item := ⟨some "movie", some "Bar", some 1999⟩

/-- Concrete fixture: a movie item with no `year` key. -/
def itemNoYear : Item := ⟨some "movie", some "Foo", none⟩

/-- Concrete environment: seasons 1 and 2 of `TShow` and the movie query
`Foo 2020` have hits, every other query has none; downloads and SCP
transfers succeed; the Plex watchlist response parses to an empty
metadata list. -/
def envA : Env where
  fetchTL := fun q =>
    if q = "TShow S01" then .ok ⟨[torA]⟩
    else if q = "TShow S02" then .ok ⟨[torB]⟩
    else if q = "Foo 2020" then .ok ⟨[torFoo]⟩
    else .ok ⟨[]⟩
  download := fun _ _ _ => .ok ()
  scp := fun _ _ => .ok ()
  remotePathBase := "/base"
  plexResponse := .success (.jsonBody (some []))

/-- Concrete environment: every search raises an HTTP error; the Plex
watchlist holds a movie followed by a show. -/
def envErr : Env where
  fetchTL := fun _ => .error (.httpError "boom")
  download := fun _ _ _ => .ok ()
  scp := fun _ _ => .ok ()
  remotePathBase := "/base"
  plexResponse := .success (.jsonBody (some [itemFoo, itemShowA]))

/-- The per-season hit lists of `envA` for the show `TShow`. -/
def seasonHits : Nat → List Torrent := fun s =>
  if s = 1 then [torA] else if s = 2 then [torB] else []

/- ------------------------------------------------------------------ -/
/- Theorems                                                           -/
/- ------------------------------------------------------------------ -/

theorem queriesOf_append (a b : List Event) :
    queriesOf (a ++ b) = queriesOf a ++ queriesOf b := by
  induction a with
  | nil => rfl
  | cons e es ih => cases e <;> simp [queriesOf, ih]

theorem downloadsOf_append (a b : List Event) :
    downloadsOf (a ++ b) = downloadsOf a ++ downloadsOf b := by
  induction a with
  | nil => rfl
  | cons e es ih => cases e <;> simp [downloadsOf, ih]

theorem transfersOf_append (a b : List Event) :
    transfersOf (a ++ b) = transfersOf a ++ transfersOf b := by
  induction a with
  | nil => rfl
  | cons e es ih => cases e <;> simp [transfersOf, ih]

theorem download_and_transfer_torrent_ok (env : Env) (t : Torrent)
    (mt : String)
    (hdl : env.download t.fid t.filename t.filename = Except.ok ())
    (hscp : env.scp t.filename (env.remotePathBase ++ "/" ++ t.filename) =
      Except.ok ()) :
    download_and_transfer_torrent env t mt =
      ([Event.downloaded t.fid t.filename t.filename,
        Event.transferred t.filename
          (env.remotePathBase ++ "/" ++ t.filename)], Except.ok ()) := by
  simp [download_and_transfer_torrent, hdl, hscp]

theorem queriesOf_download_and_transfer (env : Env) (t : Torrent)
    (mt : String) :
    queriesOf (download_and_transfer_torrent env t mt).1 = [] := by
  simp only [download_and_transfer_torrent]
  cases hd : env.download t.fid t.filename t.filename with
  | error e => simp [queriesOf]
  | ok u =>
    cases hs : env.scp t.filename (env.remotePathBase ++ "/" ++ t.filename)
      <;> simp [queriesOf]

/-- C2, counterexample: for media type `"series"`, filename `"X.mkv"` and
configured base `"/base"`, the destination actually handed to the SCP
client is `"/base/X.mkv"`, not the claimed `"/base/series/X.mkv"`. -/
theorem c2_counterexample :
    transfersOf (download_and_transfer_torrent envA torX "series").1 =
      [("X.mkv", "/base/X.mkv")] ∧
    transfersOf (download_and_transfer_torrent envA torX "series").1 ≠
      [("X.mkv", "/base/series/X.mkv")] := by
  constructor
  · rfl
  · decide

/-- C2 (amended): when the download and the SCP call succeed, the remote
destination path passed to the transfer client is
`{configured_base_path}/{filename}`, with no media-type segment, for
every media type. -/
theorem c2_destination_path (env : Env) (torrent : Torrent)
    (media_type : String)
    (hdl : env.download torrent.fid torrent.filename torrent.filename =
      Except.ok ())
    (hscp : env.scp torrent.filename
      (env.remotePathBase ++ "/" ++ torrent.filename) = Except.ok ()) :
    transfersOf (download_and_transfer_torrent env torrent media_type).1 =
      [(torrent.filename, env.remotePathBase ++ "/" ++ torrent.filename)] := by
  rw [download_and_transfer_torrent_ok env torrent media_type hdl hscp]
  rfl

/-- C2, witness: the amended path property evaluated on the concrete
fixture. -/
theorem c2_witness :
    transfersOf (download_and_transfer_torrent envA torX "series").1 =
      [(torX.filename, envA.remotePathBase ++ "/" ++ torX.filename)] :=
  c2_destination_path envA torX "series" rfl rfl

/-- C10: a watchlist item routed to the movie path whose `year` key is
absent makes processing raise `KeyError("year")`; it is not skipped. -/
theorem c10_missing_year (env : Env) (item : Item) (ty T : String)
    (hty : item.type = some ty) (hshow : ty ≠ "show")
    (hT : item.title = some T) (hY : item.year = none) :
    process_watchlist_item env item =
      ([], Except.error (PyError.keyError "year")) := by
  simp only [process_watchlist_item, hty, if_neg hshow, process_movie, hT, hY]

/-- C10, witness: the concrete movie item with no `year` key raises. -/
theorem c10_witness :
    process_watchlist_item envA itemNoYear =
      ([], Except.error (PyError.keyError "year")) :=
  c10_missing_year envA itemNoYear "movie" "Foo" rfl (by decide) rfl rfl

/-- C6: on a network or HTTP-status failure, an empty response body, or a
malformed body, the watchlist client returns `None` without raising, and
the orchestrator's `fetch_watchlist` returns the empty list after logging
a warning. -/
theorem c6_watchlist_soft_fail (r : PlexResponse)
    (h : r = PlexResponse.requestException ∨
      r = PlexResponse.success PlexBody.emptyBody ∨
      r = PlexResponse.success PlexBody.invalidJson) :
    PlexAPI.fetch_watchlist r = none ∧
    fetch_watchlist r = ([Event.warned noItemsMsg], []) := by
  rcases h with h | h | h <;> subst h <;> exact ⟨rfl, rfl⟩

/-- C6, witness: the network-failure case evaluated concretely. -/
theorem c6_witness :
    PlexAPI.fetch_watchlist PlexResponse.requestException = none ∧
    fetch_watchlist PlexResponse.requestException =
      ([Event.warned noItemsMsg], []) :=
  c6_watchlist_soft_fail PlexResponse.requestException (Or.inl rfl)

/-- C7: when watchlist retrieval yields an empty list, the run completes
normally with a logged warning and performs no download and no transfer. -/
theorem c7_empty_watchlist_run (env : Env)
    (h : (fetch_watchlist env.plexResponse).2 = []) :
    Main.main env = ([Event.warned noItemsMsg], Except.ok ()) ∧
    downloadsOf (Main.main env).1 = [] ∧
    transfersOf (Main.main env).1 = [] := by
  have hfw : fetch_watchlist env.plexResponse =
      ([Event.warned noItemsMsg], []) := by
    rcases hr : env.plexResponse with _ | body
    · rfl
    · rcases body with _ | _ | md
      · rfl
      · rfl
      · rcases md with _ | l
        · rfl
        · rcases l with _ | ⟨it, rest⟩
          · rfl
          · rw [hr] at h
            simp [fetch_watchlist, PlexAPI.fetch_watchlist,
              PlexAPI.parse_response] at h
  have hm : Main.main env = ([Event.warned noItemsMsg], Except.ok ()) := by
    simp [Main.main, hfw, process_watchlist]
  exact ⟨hm, by rw [hm]; rfl, by rw [hm]; rfl⟩

/-- C7, witness: a run over a successfully parsed but empty watchlist. -/
theorem c7_witness :
    Main.main envA = ([Event.warned noItemsMsg], Except.ok ()) ∧
    downloadsOf (Main.main envA).1 = [] ∧
    transfersOf (Main.main envA).1 = [] :=
  c7_empty_watchlist_run envA rfl

/-- C3: an HTTP error raised by the torrent search client is not caught at
the watchlist-item level: it escapes `process_watchlist_item`, and the
loop over the watchlist stops there, so no later item is processed. -/
theorem c3_unhandled_propagation (env : Env) (item : Item)
    (rest : List Item) (e : PyError) (T : String) (Y : Int)
    (hty : item.type = some "movie") (hT : item.title = some T)
    (hY : item.year = some Y)
    (hq : env.fetchTL (T ++ " " ++ toString Y) = Except.error e) :
    (process_watchlist_item env item).2 = Except.error e ∧
    process_watchlist env (item :: rest) =
      ((process_watchlist_item env item).1, Except.error e) := by
  have hpi : process_watchlist_item env item =
      ([Event.searched (T ++ " " ++ toString Y)], Except.error e) := by
    simp [process_watchlist_item, hty, process_movie, hT, hY,
      search_torrents, hq]
  refine ⟨by rw [hpi], ?_⟩
  rw [process_watchlist, hpi]

/-- C3, witness: in an environment whose searches all raise, processing a
movie followed by a show stops at the movie with the error, with the show
never reached. -/
theorem c3_witness :
    (process_watchlist_item envErr itemFoo).2 =
      Except.error (PyError.httpError "boom") ∧
    process_watchlist envErr (itemFoo :: [itemShowA]) =
      ((process_watchlist_item envErr itemFoo).1,
       Except.error (PyError.httpError "boom")) :=
  c3_unhandled_propagation envErr itemFoo [itemShowA]
    (PyError.httpError "boom") "Foo" 2020 rfl rfl rfl rfl

/-- C4: a movie item with title `T` and year `Y` issues exactly the one
query `"T Y"`; an empty result list means the item is skipped with no
download and no transfer, and a non-empty one means the element at index
0 is handed to download-and-transfer with media type `"films"`. -/
theorem c4_movie_single_query (env : Env) (item : Item) (T : String)
    (Y : Int) (l : List Torrent) (hT : item.title = some T)
    (hY : item.year = some Y)
    (hq : env.fetchTL (T ++ " " ++ toString Y) = Except.ok ⟨l⟩) :
    queriesOf (process_movie env item).1 = [T ++ " " ++ toString Y] ∧
    (l = [] → process_movie env item =
      ([Event.searched (T ++ " " ++ toString Y),
        Event.warned (noTorrentsMsg (T ++ " " ++ toString Y))],
       Except.ok ())) ∧
    (∀ t ts, l = t :: ts → process_movie env item =
      (Event.searched (T ++ " " ++ toString Y) ::
        (download_and_transfer_torrent env t "films").1,
       (download_and_transfer_torrent env t "films").2)) := by
  cases l with
  | nil =>
    have hpm : process_movie env item =
        ([Event.searched (T ++ " " ++ toString Y),
          Event.warned (noTorrentsMsg (T ++ " " ++ toString Y))],
         Except.ok ()) := by
      simp [process_movie, hT, hY, search_torrents, hq]
    refine ⟨?_, ?_, ?_⟩
    · rw [hpm]
      rfl
    · intro _
      exact hpm
    · intro u us hl
      simp at hl
  | cons t ts =>
    have hpm : process_movie env item =
        (Event.searched (T ++ " " ++ toString Y) ::
          (download_and_transfer_torrent env t "films").1,
         (download_and_transfer_torrent env t "films").2) := by
      simp [process_movie, hT, hY, search_torrents, hq]
    refine ⟨?_, ?_, ?_⟩
    · rw [hpm]
      simp [queriesOf, queriesOf_download_and_transfer]
    · intro hl
      simp at hl
    · intro u us hl
      injection hl with h1 h2
      subst h1
      exact hpm

/-- C4, witness: the concrete movie `Foo (2020)` with one hit, and its
single query. -/
theorem c4_witness :
    queriesOf (process_movie envA itemFoo).1 =
      ["Foo" ++ " " ++ toString (2020 : Int)] ∧
    (([torFoo] : List Torrent) = [] → process_movie envA itemFoo =
      ([Event.searched ("Foo" ++ " " ++ toString (2020 : Int)),
        Event.warned (noTorrentsMsg ("Foo" ++ " " ++ toString (2020 : Int)))],
       Except.ok ())) ∧
    (∀ t ts, ([torFoo] : List Torrent) = t :: ts →
      process_movie envA itemFoo =
        (Event.searched ("Foo" ++ " " ++ toString (2020 : Int)) ::
          (download_and_transfer_torrent envA t "films").1,
         (download_and_transfer_torrent envA t "films").2)) :=
  c4_movie_single_query envA itemFoo "Foo" 2020 [torFoo] rfl rfl rfl

/-- C5: with a non-empty search result, the candidate handed to
download-and-transfer is the element at index 0 of the list, in the movie
variant and equally for the first matching season of the show variant,
whatever the candidates' field values. -/
theorem c5_first_result_selected (env : Env) (itemM itemS : Item)
    (T TS : String) (Y : Int) (t u : Torrent) (ts us : List Torrent)
    (hMT : itemM.title = some T) (hMY : itemM.year = some Y)
    (hmq : env.fetchTL (T ++ " " ++ toString Y) = Except.ok ⟨t :: ts⟩)
    (hST : itemS.title = some TS)
    (hsq : env.fetchTL (showQuery TS 1) = Except.ok ⟨u :: us⟩) :
    process_movie env itemM =
      (Event.searched (T ++ " " ++ toString Y) ::
        (download_and_transfer_torrent env t "films").1,
       (download_and_transfer_torrent env t "films").2) ∧
    ∃ tail r, process_show env itemS =
      (Event.searched (showQuery TS 1) ::
        ((download_and_transfer_torrent env u "series").1 ++ tail), r) := by
  constructor
  · simp [process_movie, hMT, hMY, search_torrents, hmq]
  · have hst : search_torrents env (showQuery TS 1) =
        ([Event.searched (showQuery TS 1)], Except.ok (u :: us)) := by
      simp [search_torrents, hsq]
    have hrange : List.range' 1 9 = 1 :: List.range' 2 8 := rfl
    simp only [process_show, hST]
    rw [hrange]
    generalize List.range' 2 8 = rs
    simp only [process_show_seasons, hst]
    rcases hdt : download_and_transfer_torrent env u "series" with ⟨devs, r⟩
    cases r with
    | error e =>
      refine ⟨[], Except.error e, ?_⟩
      simp [hdt]
    | ok v =>
      rcases hrest : process_show_seasons env TS rs with ⟨evs2, r2⟩
      refine ⟨evs2, r2, ?_⟩
      simp [hdt, hrest]

/-- C5, witness: concrete movie and show items whose first-index
candidates are selected. -/
theorem c5_witness :
    process_movie envA itemFoo =
      (Event.searched ("Foo" ++ " " ++ toString (2020 : Int)) ::
        (download_and_transfer_torrent envA torFoo "films").1,
       (download_and_transfer_torrent envA torFoo "films").2) ∧
    ∃ tail r, process_show envA itemShowA =
      (Event.searched (showQuery "TShow" 1) ::
        ((download_and_transfer_torrent envA torA "series").1 ++ tail), r) :=
  c5_first_result_selected envA itemFoo itemShowA "Foo" "TShow" 2020
    torFoo torA [] [] rfl rfl rfl rfl rfl

/-- C9: every watchlist item is routed by its `type` field alone: the show
path exactly when it equals `"show"`, the movie path for every other
value; the result of processing is exactly that of the selected path. -/
theorem c9_dispatch_by_type (env : Env) (item : Item) (ty : String)
    (h : item.type = some ty) :
    process_watchlist_item env item =
      (if ty = "show" then process_show env item
       else process_movie env item) := by
  rcases htitle : item.title with _ | T
  · by_cases hty : ty = "show" <;>
      simp [process_watchlist_item, h, hty, process_show, process_movie,
        htitle]
  · by_cases hty : ty = "show"
    · rcases hps : process_show env item with ⟨evs, r⟩
      simp only [process_watchlist_item, h, if_pos hty, hps]
      cases r with
      | error e => rfl
      | ok v =>
        cases v
        simp [htitle]
    · rcases hpm : process_movie env item with ⟨evs, r⟩
      simp only [process_watchlist_item, h, if_neg hty, hpm]
      cases r with
      | error e => rfl
      | ok v =>
        cases v
        simp [htitle]

/-- C9, witness: the concrete movie item is routed to the movie path. -/
theorem c9_witness :
    process_watchlist_item envA itemFoo =
      (if "movie" = "show" then process_show envA itemFoo
       else process_movie envA itemFoo) :=
  c9_dispatch_by_type envA itemFoo "movie" rfl

theorem process_show_seasons_all (env : Env) (T : String)
    (l : Nat → List Torrent)
    (hdl : ∀ a b c, env.download a b c = Except.ok ())
    (hscp : ∀ a b, env.scp a b = Except.ok ()) :
    ∀ ss : List Nat,
      (∀ s ∈ ss, env.fetchTL (showQuery T s) = Except.ok ⟨l s⟩) →
      queriesOf (process_show_seasons env T ss).1 = ss.map (showQuery T) ∧
      (downloadsOf (process_show_seasons env T ss).1).length =
        (ss.filter (fun s => !(l s).isEmpty)).length ∧
      (process_show_seasons env T ss).2 = Except.ok () := by
  intro ss
  induction ss with
  | nil =>
    intro _
    exact ⟨rfl, rfl, rfl⟩
  | cons s rest ih =>
    intro h
    have hs : env.fetchTL (showQuery T s) = Except.ok ⟨l s⟩ :=
      h s (by simp)
    obtain ⟨ihq, ihd, ihr⟩ := ih (fun x hx => h x (by simp [hx]))
    rcases hrest : process_show_seasons env T rest with ⟨evs2, r2⟩
    rw [hrest] at ihq ihd ihr
    cases hl : l s with
    | nil =>
      have hstep : process_show_seasons env T (s :: rest) =
          ([Event.searched (showQuery T s),
            Event.warned (noTorrentsMsg (showQuery T s))] ++ evs2, r2) := by
        simp only [process_show_seasons, search_torrents, hs, hl,
          List.isEmpty_nil, if_pos, hrest]
      rw [hstep]
      refine ⟨?_, ?_, ?_⟩
      · simp [queriesOf_append, queriesOf, ihq]
      · simp [downloadsOf_append, downloadsOf, ihd, hl]
      · simpa using ihr
    | cons t ts =>
      have hdt : download_and_transfer_torrent env t "series" =
          ([Event.downloaded t.fid t.filename t.filename,
            Event.transferred t.filename
              (env.remotePathBase ++ "/" ++ t.filename)], Except.ok ()) :=
        download_and_transfer_torrent_ok env t "series" (hdl _ _ _)
          (hscp _ _)
      have hstep : process_show_seasons env T (s :: rest) =
          ([Event.searched (showQuery T s)] ++
            ([Event.downloaded t.fid t.filename t.filename,
              Event.transferred t.filename
                (env.remotePathBase ++ "/" ++ t.filename)] ++ evs2), r2) := by
        simp only [process_show_seasons, search_torrents, hs, hl, hrest]
        simp [hdt]
      rw [hstep]
      refine ⟨?_, ?_, ?_⟩
      · simp [queriesOf_append, queriesOf, ihq]
      · simp [downloadsOf_append, downloadsOf, ihd, hl]
      · simpa using ihr

/-- C1, counterexample: in an environment where both the `S01` and the
`S02` queries for `TShow` have hits, processing the show downloads a
candidate for both seasons — the loop does not stop at the first season
with a non-empty result, and more than one candidate is downloaded and
transferred for the show in one run. -/
theorem c1_counterexample :
    downloadsOf (process_show envA itemShowA).1 =
      [("101", "a.s01.mkv", "a.s01.mkv"), ("102", "a.s02.mkv", "a.s02.mkv")] ∧
    ¬ (downloadsOf (process_show envA itemShowA).1).length ≤ 1 := by
  constructor
  · rfl
  · decide

/-- C1 (amended): for a show with title `T`, all nine season queries
`T S01, ..., T S09` are issued in increasing order regardless of results,
and for every season whose search returns a non-empty list the first
candidate is downloaded and transferred, so up to nine candidates — one
per season with a hit — are fetched per show per run. -/
theorem c1_all_nine_seasons (env : Env) (item : Item) (T : String)
    (l : Nat → List Torrent) (hT : item.title = some T)
    (hq : ∀ s ∈ List.range' 1 9,
      env.fetchTL (showQuery T s) = Except.ok ⟨l s⟩)
    (hdl : ∀ a b c, env.download a b c = Except.ok ())
    (hscp : ∀ a b, env.scp a b = Except.ok ()) :
    queriesOf (process_show env item).1 =
      (List.range' 1 9).map (showQuery T) ∧
    (downloadsOf (process_show env item).1).length =
      ((List.range' 1 9).filter (fun s => !(l s).isEmpty)).length ∧
    (process_show env item).2 = Except.ok () := by
  simp only [process_show, hT]
  exact process_show_seasons_all env T l hdl hscp (List.range' 1 9) hq

/-- C1, witness: the amended season behaviour on the concrete show with
hits in seasons 1 and 2: nine queries, two downloads. -/
theorem c1_witness :
    queriesOf (process_show envA itemShowA).1 =
      (List.range' 1 9).map (showQuery "TShow") ∧
    (downloadsOf (process_show envA itemShowA).1).length =
      ((List.range' 1 9).filter (fun s => !(seasonHits s).isEmpty)).length ∧
    (process_show envA itemShowA).2 = Except.ok () :=
  c1_all_nine_seasons envA itemShowA "TShow" seasonHits rfl
    (by intro s hs; fin_cases hs <;> rfl) (fun a b c => rfl)
    (fun a b => rfl)

theorem charsLead_iff (p l : List Char) :
    charsLead p l = true ↔ ∃ t, l = p ++ t := by
  induction p generalizing l with
  | nil =>
    simp [charsLead]
  | cons a as ih =>
    cases l with
    | nil => simp [charsLead]
    | cons b bs =>
      simp only [charsLead, Bool.and_eq_true, beq_iff_eq, ih,
        List.cons_append, List.cons.injEq]
      constructor
      · rintro ⟨hab, t, ht⟩
        exact ⟨t, hab.symm, ht⟩
      · rintro ⟨t, hba, ht⟩
        exact ⟨hba.symm, t, ht⟩

theorem containsL_iff (sub l : List Char) :
    containsL sub l = true ↔ ∃ l1 l2, l = l1 ++ sub ++ l2 := by
  induction l with
  | nil =>
    simp only [containsL, charsLead_iff]
    constructor
    · rintro ⟨t, ht⟩
      rcases List.append_eq_nil.mp ht.symm with ⟨h1, h2⟩
      exact ⟨[], [], by simp [h1, h2]⟩
    · rintro ⟨l1, l2, h⟩
      rcases List.append_eq_nil.mp h.symm with ⟨h12, h3⟩
      rcases List.append_eq_nil.mp h12 with ⟨h1, h2⟩
      exact ⟨[], by simp [h2]⟩
  | cons c cs ih =>
    simp only [containsL, Bool.or_eq_true, charsLead_iff, ih]
    constructor
    · rintro (⟨t, ht⟩ | ⟨l1, l2, h⟩)
      · exact ⟨[], t, by simp [ht]⟩
      · exact ⟨c :: l1, l2, by simp [h]⟩
    · rintro ⟨l1, l2, h⟩
      cases l1 with
      | nil =>
        left
        exact ⟨l2, by simpa using h⟩
      | cons x xs =>
        right
        rw [List.cons_append, List.cons_append, List.cons.injEq] at h
        exact ⟨xs, l2, h.2⟩

/-- C8: the series-detection predicate holds exactly on the titles that
contain `"S0"` as a substring, i.e. the titles that decompose as
`p ++ "S0" ++ q`. -/
theorem c8_is_series_iff (title : String) :
    is_series title = true ↔ ∃ p q : String, title = p ++ "S0" ++ q := by
  unfold is_series str_in
  rw [containsL_iff]
  constructor
  · rintro ⟨l1, l2, h⟩
    refine ⟨⟨l1⟩, ⟨l2⟩, ?_⟩
    apply String.ext
    rw [String.data_append, String.data_append]
    exact h
  · rintro ⟨p, q, hpq⟩
    refine ⟨p.data, q.data, ?_⟩
    rw [hpq, String.data_append, String.data_append]
